import Mathlib

set_option maxHeartbeats 1000000

/-!
Shallow embedding of the Aria real-time bridge (src/real-time/...):
the manual-mode session state machine, the OSC control adapter, the
sampling/session parameter state, the feedback episode recorder, and the
clock-grid pulse arithmetic.  Python floats are embedded as rationals,
Python `Optional` as `Option`, and effects (status publications, log
lines, queue puts, playback sends) as explicit effect lists.
-/

namespace Aria

/-- Python-style clamp used throughout `sampling_state.py`:
`_clamp(val, lo, hi) = max(lo, min(hi, val))`. -/
def clamp (val lo hi : ℚ) : ℚ := max lo (min hi val)

/-- Python truthiness of an optional float: `None` and `0.0` are falsy. -/
def pyTruthyQ : Option ℚ → Bool
  | some v => v ≠ 0
  | none => false

/-- Python truthiness of an optional int: `None` and `0` are falsy. -/
def pyTruthyN : Option ℕ → Bool
  | some v => v ≠ 0
  | none => false

/-- Python truthiness of an optional string: `None` and `""` are falsy. -/
def strTruthy : Option String → Bool
  | some s => s ≠ ""
  | none => false

/-- Python `x or 0` on an optional float (`self.start_time or 0`). -/
def pyOrZero (o : Option ℚ) : ℚ := if pyTruthyQ o then o.getD 0 else 0

/-- Python `int(q)`: truncation toward zero. -/
def pyInt (q : ℚ) : ℤ := if 0 ≤ q then ⌊q⌋ else ⌈q⌉

/-- `statistics.median`: sort; middle element for odd length, mean of the
two middle elements for even length (callers guard against `[]`). -/
def median (l : List ℚ) : ℚ :=
  let s := l.insertionSort (· ≤ ·)
  let n := s.length
  if n % 2 = 1 then s.getD (n / 2) 0
  else (s.getD (n / 2 - 1) 0 + s.getD (n / 2) 0) / 2

/-- Modelled from the spec: `core/midi_buffer.TimestampedMidiMsg` is not
under src/; the spec's data model gives "TimestampedEvent — {kind,
wall-clock timestamp (monotonic seconds), note/velocity or
controller/value, optional musical-pulse position}", matching the fields
`manual_mode.py` constructs (`msg_type`, `timestamp`, `pulse`, `note`,
`velocity`, `control`, `value`). -/
structure TimestampedMidiMsg where
  msg_type : String
  timestamp : ℚ
  pulse : Option ℕ := none
  note : Option ℕ := none
  velocity : Option ℕ := none
  control : Option ℕ := none
  value : Option ℕ := none
deriving DecidableEq, Repr

/-- Truthiness of `m.velocity and m.velocity > 0` (velocity `None` or `0`
is falsy, otherwise compare with 0). -/
def velTruthy : Option ℕ → Bool
  | some v => 0 < v
  | none => false

/-- `manual_mode.infer_bpm_from_onsets` (src/real-time/modes/manual_mode.py
lines 77-85): onsets are timestamps of `note_on` events with positive
velocity; fewer than two onsets gives `None`; deltas are differences of
consecutive onsets kept only when strictly increasing; no delta gives
`None`; otherwise `60 / median(deltas)` clamped via
`max(30.0, min(bpm, 240.0))`. -/
def infer_bpm_from_onsets (messages : List TimestampedMidiMsg) : Option ℚ :=
  let onsets := (messages.filter fun m =>
    m.msg_type = "note_on" && velTruthy m.velocity).map (·.timestamp)
  if onsets.length < 2 then none
  else
    let deltas := (onsets.zip onsets.tail).filterMap fun ab =>
      if ab.1 < ab.2 then some (ab.2 - ab.1) else none
    if deltas = [] then none
    else some (max 30 (min (60 / median deltas) 240))

/-- The tempo estimate as the spec words it (for comparison with the
source embedding): "compute inter-onset deltas, take the median of the
positive deltas, convert to beats-per-minute as `60 / median_delta`, and
clamp to [30, 240]. Returns unknown if fewer than two onsets or all
deltas non-positive." -/
def spec_tempo_estimate (messages : List TimestampedMidiMsg) : Option ℚ :=
  let onsets := (messages.filter fun m =>
    m.msg_type = "note_on" && velTruthy m.velocity).map (·.timestamp)
  let deltas := (onsets.zip onsets.tail).map fun ab => ab.2 - ab.1
  let pos := deltas.filter fun d => 0 < d
  if onsets.length < 2 ∨ pos = [] then none
  else some (min (max (60 / median pos) 30) 240)

/-- `sampling_state.SamplingState` (src/real-time/sampling_state.py):
temperature, top_p and min_p fields; the lock is elided (each operation
is one atomic step of the embedding). -/
structure SamplingState where
  temperature : ℚ
  top_p : ℚ
  min_p : ℚ
deriving DecidableEq, Repr

/-- `SamplingState.__init__`: stores the arguments unchanged except that a
`None` min_p becomes `0.0`.  No clamping happens here. -/
def SamplingState.init (temperature top_p : ℚ) (min_p : Option ℚ) : SamplingState :=
  { temperature := temperature, top_p := top_p, min_p := min_p.getD 0 }

/-- `SamplingState.increase_temperature`: `clamp(t + 0.05, 0.1, 2.0)`. -/
def SamplingState.increase_temperature (s : SamplingState) : SamplingState :=
  { s with temperature := clamp (s.temperature + 5/100) (1/10) 2 }

/-- `SamplingState.decrease_temperature`: `clamp(t - 0.05, 0.1, 2.0)`. -/
def SamplingState.decrease_temperature (s : SamplingState) : SamplingState :=
  { s with temperature := clamp (s.temperature - 5/100) (1/10) 2 }

/-- `SamplingState.increase_top_p`: `clamp(p + 0.01, 0.1, 1.0)`. -/
def SamplingState.increase_top_p (s : SamplingState) : SamplingState :=
  { s with top_p := clamp (s.top_p + 1/100) (1/10) 1 }

/-- `SamplingState.decrease_top_p`: `clamp(p - 0.01, 0.1, 1.0)`. -/
def SamplingState.decrease_top_p (s : SamplingState) : SamplingState :=
  { s with top_p := clamp (s.top_p - 1/100) (1/10) 1 }

/-- `SamplingState.increase_min_p`: `clamp(p + 0.01, 0.0, 0.2)`. -/
def SamplingState.increase_min_p (s : SamplingState) : SamplingState :=
  { s with min_p := clamp (s.min_p + 1/100) 0 (2/10) }

/-- `SamplingState.decrease_min_p`: `clamp(p - 0.01, 0.0, 0.2)`. -/
def SamplingState.decrease_min_p (s : SamplingState) : SamplingState :=
  { s with min_p := clamp (s.min_p - 1/100) 0 (2/10) }

/-- `SamplingState.get_values`: atomic read of the triple. -/
def SamplingState.get_values (s : SamplingState) : ℚ × ℚ × ℚ :=
  (s.temperature, s.top_p, s.min_p)

/-- Modelled from the spec: the absolute-set operation used by the remote
adapter ("temp | float | absolute-set sampling parameter, clamped"); the
implementing class `core/sampling_state.py` is not under src/.  Clamped to
the documented temperature range [0.1, 2.0]. -/
def SamplingState.set_temperature (s : SamplingState) (v : ℚ) : SamplingState :=
  { s with temperature := clamp v (1/10) 2 }

/-- Modelled from the spec: absolute-set for the nucleus threshold,
clamped to [0.1, 1.0] (`core/sampling_state.py` is not under src/). -/
def SamplingState.set_top_p (s : SamplingState) (v : ℚ) : SamplingState :=
  { s with top_p := clamp v (1/10) 1 }

/-- Modelled from the spec: absolute-set for the minimum-probability
threshold, clamped to [0.0, 0.2] (`core/sampling_state.py` is not under
src/). -/
def SamplingState.set_min_p (s : SamplingState) (v : ℚ) : SamplingState :=
  { s with min_p := clamp v 0 (2/10) }

/-- Modelled from the spec: the shared session-state object
(`core/sampling_state.SessionState`, not under src/; the version in
src/real-time/sampling_state.py holds `status`, `mode` and
`last_output_path`).  Call sites in `manual_mode.py` and
`osc_controller.py` additionally read/write `has_pending_output`,
`is_recording`, `last_record_level` and the token budget; each setter is
a plain field store under the state lock. -/
structure SessionState where
  status : String := "IDLE"
  mode : String := "manual"
  last_output_path : Option String := none
  has_pending_output : Bool := false
  is_recording : Bool := false
  last_record_level : Option ℕ := none
  max_tokens : Option ℤ := none
deriving DecidableEq, Repr

/-- `SessionState.set_status`. -/
def SessionState.set_status (ss : SessionState) (st : String) : SessionState :=
  { ss with status := st }

/-- `SessionState.set_last_output`. -/
def SessionState.set_last_output (ss : SessionState) (p : Option String) : SessionState :=
  { ss with last_output_path := p }

/-- `SessionState.set_recording` (modelled from the spec, store of the
recording flag read back by the OSC adapter). -/
def SessionState.set_recording (ss : SessionState) (b : Bool) : SessionState :=
  { ss with is_recording := b }

/-- `SessionState.set_record_level` (modelled from the spec's "last level"
check for record-level deduplication). -/
def SessionState.set_record_level (ss : SessionState) (l : ℕ) : SessionState :=
  { ss with last_record_level := some l }

/-- `SessionState.set_max_tokens` (modelled from the spec's token budget). -/
def SessionState.set_max_tokens (ss : SessionState) (t : ℤ) : SessionState :=
  { ss with max_tokens := some t }

/-- `SessionState.get_max_tokens` (modelled from the spec's token budget). -/
def SessionState.get_max_tokens (ss : SessionState) : Option ℤ :=
  ss.max_tokens

/-- The standard MIDI clock resolution: 24 pulses per quarter note. -/
def PULSES_PER_QUARTER : ℕ := 24

/-- Modelled from the spec: the clock grid (`clock_grid.ClockGrid`,
referenced by src/real-time/tests/test_clock_grid.py but not under src/)
"expose `pulsesPerBar = beatsPerBar × PULSES_PER_QUARTER` and
`pulsesPerBlock = measures × pulsesPerBar`"; constructed with a clock
port name, a measure count and a time-signature numerator. -/
structure ClockGrid where
  clock_port_name : String
  measures : ℕ
  beats_per_bar : ℕ
deriving DecidableEq, Repr

/-- Modelled from the spec: `pulsesPerBar = beatsPerBar × PULSES_PER_QUARTER`. -/
def ClockGrid.get_pulses_per_bar (g : ClockGrid) : ℕ :=
  g.beats_per_bar * PULSES_PER_QUARTER

/-- Modelled from the spec: `pulsesPerBlock = measures × pulsesPerBar`. -/
def ClockGrid.get_pulses_per_block (g : ClockGrid) : ℕ :=
  g.measures * g.get_pulses_per_bar

/-- The prompt artifact handed to `buffer_to_tempfile_midi` in
`_finish_recording_and_generate`: the (possibly trimmed) message list,
the declared window duration, the inferred tempo and the tick
resolution. -/
structure PromptWindow where
  messages : List TimestampedMidiMsg
  window_seconds : ℚ
  current_bpm : Option ℚ
  ticks_per_beat : ℕ
deriving DecidableEq, Repr

/-- Commands placed on the control queue (`(cmd, payload)` tuples drained
by `ManualModeSession._drain_commands`).  The `record` payload is its
Python truthiness. -/
inductive Command where
  | toggle_record
  | record (payload : Bool)
  | record_start
  | record_stop
  | cancel
  | play_last
  | play
deriving DecidableEq, Repr

/-- Observable effects of the manual-mode session: status stores on the
shared session state, OSC status/log/params sends, UI log lines
(`_log_ui` invocations; the formatted counts of the original f-strings
are elided), generation-backend calls, playback sends to the output port
and temp-file deletions. -/
inductive Eff where
  | setStatus (s : String)
  | oscStatus (s : String)
  | oscLog (msg : String)
  | oscParams
  | logUi (msg : String)
  | genCall (prompt : PromptWindow) (prompt_duration_s : ℤ) (horizon_s : ℚ)
      (temperature top_p : ℚ) (min_p : Option ℚ) (max_new_tokens : Option ℕ)
  | play (path : String)
  | unlink (path : String)
  | unlinkPrompt (prompt : PromptWindow)
deriving DecidableEq, Repr

/-- The optional `threading.Event` arguments of `_drain_commands`
(`stop_key_event`, `start_event`, `play_event`): `none` when the argument
was not passed, `some b` for an event whose current set-flag is `b`. -/
structure DrainEvts where
  stopEv : Option Bool := none
  startEv : Option Bool := none
  playEv : Option Bool := none
deriving DecidableEq, Repr

/-- `modes/manual_mode.ManualModeSession`: the fields of the session
object that the drained-command / finish-and-generate logic reads or
writes.  Port, queue and callback objects are represented by presence
flags; `aria_engine.generate` is the external backend, so its result is
passed to `finishRecordingAndGenerate` as a parameter. -/
structure ManualSession where
  play_gate : Bool
  pending_output_path : Option String
  recorded : List TimestampedMidiMsg
  start_time : Option ℚ
  stop_time : Option ℚ
  recording_flag : Bool
  cancel_event : Bool
  state : String
  max_seconds : Option ℚ
  max_bars : Option ℕ
  beats_per_bar : ℕ
  ticks_per_beat : ℕ
  gen_seconds : ℚ
  max_new_tokens : Option ℕ
  play_key : String
  sampling_state : Option SamplingState
  session_state : Option SessionState
  has_command_queue : Bool
  has_out_port : Bool
  has_osc_status_cb : Bool
  has_osc_log_cb : Bool
  has_osc_params_cb : Bool
deriving DecidableEq, Repr

/-- `ManualModeSession.__init__` (src/real-time/modes/manual_mode.py lines
103-161).  Note line 146: `self.play_gate = True` — the constructor
stores `True` unconditionally, ignoring the `play_gate` argument (the
source comment reads "Gate playback to explicit PLAY command/key to keep
manual + OSC paths consistent").  `play_key or "p"` defaults a `None` or
empty play key to `"p"`.  Ports are opened later by `run`, so the
out-port presence flag starts `false`. -/
def ManualSession.init (ticks_per_beat : ℕ) (gen_seconds : ℚ)
    (max_seconds : Option ℚ) (max_bars : Option ℕ) (beats_per_bar : ℕ)
    (max_new_tokens : Option ℕ) (play_key : Option String)
    (sampling_state : Option SamplingState) (session_state : Option SessionState)
    (has_command_queue has_osc_status_cb has_osc_log_cb has_osc_params_cb : Bool)
    (play_gate : Bool) : ManualSession :=
  { play_gate := true
    pending_output_path := none
    recorded := []
    start_time := none
    stop_time := none
    recording_flag := false
    cancel_event := false
    state := "IDLE"
    max_seconds := max_seconds
    max_bars := max_bars
    beats_per_bar := beats_per_bar
    ticks_per_beat := ticks_per_beat
    gen_seconds := gen_seconds
    max_new_tokens := max_new_tokens
    play_key := if strTruthy play_key then play_key.getD "p" else "p"
    sampling_state := sampling_state
    session_state := session_state
    has_command_queue := has_command_queue
    has_out_port := false
    has_osc_status_cb := has_osc_status_cb
    has_osc_log_cb := has_osc_log_cb
    has_osc_params_cb := has_osc_params_cb }

/-- `_handle_play_request` (lines 305-333): returns the updated session,
the emitted effects and the Python return value.  Plays
`pending_output_path`, falling back to the session state's last output;
afterwards the pending path is cleared, the artifact file deleted and the
session forced to IDLE with no last output. -/
def ManualSession.handlePlayRequest (s : ManualSession) :
    ManualSession × List Eff × Bool :=
  if ¬ s.play_gate then (s, [], false)
  else
    let path : Option String :=
      if strTruthy s.pending_output_path then s.pending_output_path
      else match s.session_state with
        | some ss => ss.last_output_path
        | none => none
    if ¬ strTruthy path then (s, [Eff.logUi "No pending output to play"], false)
    else if ¬ s.has_out_port then (s, [], false)
    else
      let p := path.getD ""
      let effsPlay := [Eff.logUi "Play requested", Eff.play p]
      let effsOsc := if s.has_osc_log_cb then [Eff.oscLog "Played pending MIDI"] else []
      let s1 := { s with pending_output_path := none }
      let (s2, effsSess) :=
        match s1.session_state with
        | some ss =>
            ({ s1 with session_state := some { ss with
                has_pending_output := false
                status := "IDLE"
                last_output_path := none } },
             [Eff.setStatus "IDLE"])
        | none => (s1, [])
      let effsStat := if s.has_osc_status_cb then [Eff.oscStatus "IDLE"] else []
      (s2, effsPlay ++ effsOsc ++ [Eff.unlink p] ++ effsSess ++ effsStat, true)

/-- One iteration of the `_drain_commands` loop body (lines 224-276):
process a single `(cmd, payload)` tuple against the current session and
the optional stop/start/play events. -/
def ManualSession.drainOne (s : ManualSession) (ev : DrainEvts) :
    Command → ManualSession × DrainEvts × List Eff
  | Command.toggle_record =>
      if s.recording_flag then
        match ev.stopEv with
        | some _ => (s, { ev with stopEv := some true }, [])
        | none => (s, ev, [])
      else
        match ev.startEv with
        | some _ => (s, { ev with startEv := some true }, [])
        | none => (s, ev, [Eff.logUi "Record start ignored (not armed)"])
  | Command.record payload =>
      if payload then
        if ¬ s.recording_flag then
          match ev.startEv with
          | some _ => (s, { ev with startEv := some true }, [])
          | none => (s, ev, [Eff.logUi "Record start ignored (not armed)"])
        else (s, ev, [])
      else
        match ev.stopEv with
        | some _ => (s, { ev with stopEv := some true }, [])
        | none => (s, ev, [])
  | Command.record_start =>
      if s.recording_flag then
        (s, ev, [Eff.logUi "Already recording; record_start ignored"])
      else
        match ev.startEv with
        | some _ => (s, { ev with startEv := some true }, [])
        | none => (s, ev, [Eff.logUi "Record start ignored (not armed)"])
  | Command.record_stop =>
      if ¬ s.recording_flag then
        (s, ev, [Eff.logUi "Not recording; record_stop ignored"])
      else
        match ev.stopEv with
        | some _ => (s, { ev with stopEv := some true }, [])
        | none => (s, ev, [])
  | Command.cancel =>
      let ev1 := match ev.stopEv with
        | some _ => { ev with stopEv := some true }
        | none => ev
      let s1 := { s with recorded := [] }
      let (s2, effsSess) :=
        match s1.session_state with
        | some ss =>
            ({ s1 with session_state := some { ss with
                status := "IDLE"
                has_pending_output := false } },
             [Eff.setStatus "IDLE"])
        | none => (s1, [])
      (s2, ev1, [Eff.logUi "Recording canceled"] ++ effsSess)
  | Command.play_last =>
      match s.session_state with
      | some ss =>
          if strTruthy ss.last_output_path ∧ s.has_out_port then
            (s, ev, [Eff.logUi "Playing last output (UI)",
                     Eff.play (ss.last_output_path.getD "")])
          else (s, ev, [])
      | none => (s, ev, [])
  | Command.play =>
      match ev.playEv with
      | some _ => (s, { ev with playEv := some true }, [])
      | none =>
          let hp := s.handlePlayRequest
          (hp.1, ev, hp.2.1)

/-- Recursive drain of a queued command list (the `while True:
get_nowait()` loop). -/
def ManualSession.drainGo (s : ManualSession) (ev : DrainEvts) :
    List Command → ManualSession × DrainEvts × List Eff
  | [] => (s, ev, [])
  | c :: rest =>
      let one := s.drainOne ev c
      let next := one.1.drainGo one.2.1 rest
      (next.1, next.2.1, one.2.2 ++ next.2.2)

/-- `_drain_commands` (lines 213-278): returns immediately when no command
queue was wired in, otherwise drains every pending command in order. -/
def ManualSession.drainCommands (s : ManualSession) (cmds : List Command)
    (ev : DrainEvts) : ManualSession × DrainEvts × List Eff :=
  if ¬ s.has_command_queue then (s, ev, [])
  else s.drainGo ev cmds

/-- The post-loop cleanup of `_wait_for_play` (lines 352-357): when the
loop exited through `cancel_event`, drop the pending output and force
IDLE (only with a session state wired in). -/
def ManualSession.cleanupCancel (s : ManualSession) : ManualSession × List Eff :=
  match s.session_state with
  | some ss =>
      ({ s with
          session_state := some { ss with
            has_pending_output := false
            status := "IDLE"
            last_output_path := none }
          pending_output_path := none },
       [Eff.setStatus "IDLE"])
  | none => (s, [])

/-- `_wait_for_play` (lines 335-357), given the complete stream of
commands that arrive while waiting and whether the keyboard play key is
ever pressed.  The polling loop drains commands until the play event is
set (then plays once and exits) or `cancel_event` is set; with neither, it
idles forever producing no further effect. -/
def ManualSession.waitForPlay (s : ManualSession) (cmds : List Command)
    (keyboardPlay : Bool) : ManualSession × List Eff :=
  if s.cancel_event then s.cleanupCancel
  else
    let d := s.drainCommands cmds { playEv := some keyboardPlay }
    if d.2.1.playEv = some true then
      let hp := d.1.handlePlayRequest
      (hp.1, d.2.2 ++ hp.2.1)
    else (d.1, d.2.2)

/-- The tempo-based trim inside `_finish_recording_and_generate` (lines
397-411): when a bpm was inferred (truthy) and `max_bars` is set
(truthy) and the duration exceeds
`(60.0 / bpm) * beats_per_bar * max_bars`, keep only events with
`timestamp <= (start_time or 0) + max_duration` and declare the clamped
duration; otherwise keep everything. -/
def trimRecorded (recorded : List TimestampedMidiMsg) (start_time : Option ℚ)
    (max_bars : Option ℕ) (beats_per_bar : ℕ) (duration : ℚ) (bpm : Option ℚ) :
    List TimestampedMidiMsg × ℚ :=
  if pyTruthyQ bpm then
    let b := bpm.getD 0
    if pyTruthyN max_bars then
      let max_duration := 60 / b * beats_per_bar * (max_bars.getD 0 : ℚ)
      if duration > max_duration then
        let cutoff := pyOrZero start_time + max_duration
        (recorded.filter fun m => m.timestamp ≤ cutoff, max_duration)
      else (recorded, duration)
    else (recorded, duration)
  else (recorded, duration)

/-- `_finish_recording_and_generate` (lines 374-499).  `now` is the
`time.monotonic()` reading at stop; `genResult` is what
`aria_engine.generate` returns (`none` = recoverable failure);
`waitCmds`/`keyboardPlay` feed the play-gate wait phase; `elsePressed` is
the `wait_for_press` outcome of the auto-play branch.  Returns the final
session and the ordered effect list. -/
def ManualSession.finishRecordingAndGenerate (s0 : ManualSession) (now : ℚ)
    (genResult : Option String) (waitCmds : List Command) (keyboardPlay : Bool)
    (elsePressed : Bool) : ManualSession × List Eff :=
  let s := { s0 with recording_flag := false, stop_time := some now }
  let duration : ℚ := if pyTruthyQ s.start_time then now - s.start_time.getD 0 else 0
  let effsStop := [Eff.logUi "Recording stopped"]
  let (s1, effsGen) :=
    match s.session_state with
    | some ss =>
        ({ s with session_state := some { ss with
            status := "GENERATING"
            is_recording := false } },
         [Eff.setStatus "GENERATING"])
    | none => (s, [])
  let effsGenOsc := if s1.has_osc_status_cb then [Eff.oscStatus "GENERATING"] else []
  if s1.recorded = [] then
    let effsEmpty := [Eff.logUi "No MIDI captured"]
    let (s2, effsIdle) :=
      match s1.session_state with
      | some ss =>
          ({ s1 with session_state := some { ss with
              status := "IDLE"
              has_pending_output := false } },
           [Eff.setStatus "IDLE"])
      | none => (s1, [])
    let effsIdleOsc := if s2.has_osc_status_cb then [Eff.oscStatus "IDLE"] else []
    (s2, effsStop ++ effsGen ++ effsGenOsc ++ effsEmpty ++ effsIdle ++ effsIdleOsc)
  else
    let bpm := infer_bpm_from_onsets s1.recorded
    let tr := trimRecorded s1.recorded s1.start_time s1.max_bars s1.beats_per_bar
      duration bpm
    let s2 := { s1 with recorded := tr.1 }
    let duration2 := tr.2
    let prompt : PromptWindow :=
      { messages := s2.recorded
        window_seconds := duration2
        current_bpm := bpm
        ticks_per_beat := s2.ticks_per_beat }
    let params : ℚ × ℚ × Option ℚ :=
      match s2.sampling_state with
      | some st => (st.temperature, st.top_p, some st.min_p)
      | none => (9/10, 19/20, none)
    let effsParams := [Eff.logUi "Generating"] ++
      (if s2.has_osc_params_cb then [Eff.oscParams] else [])
    let effsCall := [Eff.genCall prompt (max 1 (pyInt duration2)) s2.gen_seconds
      params.1 params.2.1 params.2.2 s2.max_new_tokens]
    let (s3, effsPlaying) :=
      match s2.session_state with
      | some ss => ({ s2 with session_state := some (ss.set_status "PLAYING") },
                    [Eff.setStatus "PLAYING"])
      | none => (s2, [])
    let effsPlayingOsc := if s3.has_osc_status_cb then [Eff.oscStatus "PLAYING"] else []
    let effsPre := effsStop ++ effsGen ++ effsGenOsc ++ effsParams ++ effsCall ++
      effsPlaying ++ effsPlayingOsc
    match genResult with
    | none =>
        let effsFail := [Eff.logUi "Generation returned None"]
        let (s4, effsIdle) :=
          match s3.session_state with
          | some ss => ({ s3 with session_state := some (ss.set_status "IDLE") },
                        [Eff.setStatus "IDLE"])
          | none => (s3, [])
        let effsIdleOsc := if s4.has_osc_status_cb then [Eff.oscStatus "IDLE"] else []
        (s4, effsPre ++ effsFail ++ effsIdle ++ effsIdleOsc)
    | some gp =>
        if s3.play_gate then
          let s4 := { s3 with pending_output_path := some gp }
          let (s5, effsReady) :=
            match s4.session_state with
            | some ss =>
                ({ s4 with session_state := some { ss with
                    last_output_path := some gp
                    has_pending_output := true
                    status := "READY" } },
                 [Eff.setStatus "READY"])
            | none => (s4, [])
          let effsReadyOsc := if s5.has_osc_status_cb then [Eff.oscStatus "READY"] else []
          let effsArm := [Eff.logUi "Output ready"]
          let w := s5.waitForPlay waitCmds keyboardPlay
          (w.1, effsPre ++ effsReady ++ effsReadyOsc ++ effsArm ++ w.2)
        else
          if ¬ elsePressed then
            (s3, effsPre ++ [Eff.logUi "Playback canceled"])
          else
            let effsPlay := [Eff.play gp, Eff.logUi "Played generated MIDI"]
            let (s5, effsSess) :=
              match s3.session_state with
              | some ss =>
                  ({ s3 with session_state := some { ss with
                      last_output_path := some gp
                      has_pending_output := false } },
                   ([] : List Eff))
              | none => (s3, [])
            let effsOscLog := if s5.has_osc_log_cb then [Eff.oscLog "Played generated MIDI"] else []
            let effsUnlink := [Eff.unlinkPrompt prompt, Eff.unlink gp]
            let (s6, effsIdle) :=
              match s5.session_state with
              | some ss => ({ s5 with session_state := some (ss.set_status "IDLE") },
                            [Eff.setStatus "IDLE"])
              | none => (s5, [])
            let effsIdleOsc := if s6.has_osc_status_cb then [Eff.oscStatus "IDLE"] else []
            (s6, effsPre ++ effsPlay ++ effsSess ++ effsOscLog ++ effsUnlink ++
              effsIdle ++ effsIdleOsc)

/-- Statuses stored to the shared session state, in publication order. -/
def publishedStatuses (effs : List Eff) : List String :=
  effs.filterMap fun e =>
    match e with
    | Eff.setStatus st => some st
    | _ => none

/-- Paths sent to the MIDI output port, in order. -/
def playsOf (effs : List Eff) : List String :=
  effs.filterMap fun e =>
    match e with
    | Eff.play p => some p
    | _ => none

/-- The prompt artifacts passed to the generation backend, in order. -/
def genCallPrompts (effs : List Eff) : List PromptWindow :=
  effs.filterMap fun e =>
    match e with
    | Eff.genCall prompt _ _ _ _ _ _ => some prompt
    | _ => none

/-- An inbound OSC payload as `_coerce_flag` discriminates it: `num x`
stands for any value `float()` accepts (floats, ints, bools, numeric
strings), `strTok s` for a string `float()` rejects, `other` for anything
else (`float()` fails and the value is neither `str` nor `bool`). -/
inductive OscVal where
  | num (x : ℚ)
  | strTok (s : String)
  | other
deriving DecidableEq, Repr

/-- `OscController._coerce_flag` (src/real-time/modes/osc_controller.py
lines 213-228): numeric values map to 1 when at least 0.5 and otherwise
to 0; non-numeric strings are stripped and matched against literal
true/false tokens; everything else is `None`. -/
def coerce_flag : OscVal → Option ℕ
  | OscVal.num x => some (if x ≥ 1/2 then 1 else 0)
  | OscVal.strTok s =>
      if s.trim ∈ ["1", "true", "True", "on"] then some 1
      else if s.trim ∈ ["0", "false", "False", "off"] then some 0
      else none
  | OscVal.other => none

/-- Outbound effects of the OSC adapter: log sends to the peer and
command-queue puts. -/
inductive OscEff where
  | sendLog (msg : String)
  | enqueue (c : Command)
deriving DecidableEq, Repr

/-- `OscController._handle_record` (lines 231-265): coerce the payload to
a 0/1 level; drop an unchanged level, a start while recording, or a stop
while not recording (the last still records the level); otherwise record
the level and enqueue `record_start`/`record_stop`. -/
def handle_record (ss : SessionState) (args : List OscVal) :
    SessionState × List OscEff :=
  match args with
  | [] => (ss, [])
  | v :: _ =>
      match coerce_flag v with
      | none => (ss, [OscEff.sendLog "Invalid payload (ignored)"])
      | some flag =>
          if ss.last_record_level = some flag then
            (ss, [OscEff.sendLog "Record level unchanged (ignored)"])
          else if flag = 1 ∧ ss.is_recording then
            (ss, [OscEff.sendLog "Already recording; record=1 ignored"])
          else if flag = 0 ∧ ¬ ss.is_recording then
            (ss.set_record_level flag,
             [OscEff.sendLog "Not recording; record=0 ignored"])
          else
            let ss1 := ss.set_record_level flag
            if flag = 1 then
              (ss1, [OscEff.enqueue Command.record_start,
                     OscEff.sendLog "Record start requested (OSC)"])
            else
              (ss1, [OscEff.enqueue Command.record_stop,
                     OscEff.sendLog "Record stop requested (OSC)"])

/-- The commands the adapter put on the control queue, in order. -/
def enqueuedCmds (effs : List OscEff) : List Command :=
  effs.filterMap fun e =>
    match e with
    | OscEff.enqueue c => some c
    | _ => none

/-- The first-seen values pushed by the remote peer before the startup
deadline (`OscController._startup_state` at snapshot time): `none` for a
parameter never received.  The tokens slot holds the integer already
clamped by `_handle_tokens`. -/
structure StartupSnapshot where
  temp : Option ℚ
  top_p : Option ℚ
  min_p : Option ℚ
  tokens : Option ℤ
deriving DecidableEq, Repr

/-- The log lines `sync_state_on_startup` can emit: the fixed warning
string "No OSC state received at startup. Waiting for Ableton push..."
and the final info line carrying the applied state dict. -/
inductive SyncLog where
  | warnNoState
  | syncComplete (temp top_p min_p : ℚ) (tokens : Option ℤ)
deriving DecidableEq, Repr

/-- Result of the startup sync: the returned state dict, the updated
shared sampling/session state and the emitted log lines. -/
structure SyncResult where
  stateTemp : ℚ
  stateTopP : ℚ
  stateMinP : ℚ
  stateTokens : Option ℤ
  sampling : SamplingState
  session : SessionState
  logs : List SyncLog
deriving DecidableEq, Repr

/-- The keys of the snapshot slots still `None` at the deadline (the
`missing` list of line 146). -/
def missingKeys (snap : StartupSnapshot) : List String :=
  (if snap.temp = none then ["temp"] else []) ++
  (if snap.top_p = none then ["top_p"] else []) ++
  (if snap.min_p = none then ["min_p"] else []) ++
  (if snap.tokens = none then ["tokens"] else [])

/-- `OscController.sync_state_on_startup` (lines 114-175) with the timed
wait abstracted into the snapshot of values received by the deadline:
build the state dict from received values with the current shared values
as fallback, warn (generically) when anything is missing, apply every
slot through the absolute setters, and log the final state. -/
def sync_state_on_startup (snap : StartupSnapshot) (sampling : SamplingState)
    (session : SessionState) : SyncResult :=
  let current := sampling.get_values
  let sTemp := snap.temp.getD current.1
  let sTopP := snap.top_p.getD current.2.1
  let sMinP := snap.min_p.getD current.2.2
  let sTok : Option ℤ :=
    match snap.tokens with
    | some t => some t
    | none => session.get_max_tokens
  let warnLogs := if missingKeys snap = [] then [] else [SyncLog.warnNoState]
  let sampling1 := ((sampling.set_temperature sTemp).set_top_p sTopP).set_min_p sMinP
  let session1 :=
    match sTok with
    | some t => session.set_max_tokens t
    | none => session
  { stateTemp := sTemp
    stateTopP := sTopP
    stateMinP := sMinP
    stateTokens := sTok
    sampling := sampling1
    session := session1
    logs := warnLogs ++ [SyncLog.syncComplete sTemp sTopP sMinP sTok] }

/-- One row of the episode index (`core/datastore.py`): id, draft/final
status, grade and mode.  Artifact bytes and content hashes are carried by
the on-disk episode directory and are not needed for the lifecycle
claims. -/
structure EpisodeRec where
  episode_id : String
  status : String
  grade : Option ℤ
  mode : String
deriving DecidableEq, Repr

/-- `DataStore`: the episode index. -/
structure DataStore where
  episodes : List EpisodeRec
deriving DecidableEq, Repr

/-- `DataStore.create_episode` (src/real-time/core/datastore.py lines
83-140): mint an id (timestamp plus uuid suffix, supplied here as
`episode_id`), write the artifacts and a draft metadata record, append a
draft row to the index, and return the id. -/
def DataStore.create_episode (ds : DataStore) (episode_id : String)
    (mode : String) : DataStore × String :=
  ({ episodes := ds.episodes ++
      [{ episode_id := episode_id, status := "draft", grade := none, mode := mode }] },
   episode_id)

/-- `DataStore.finalize_episode` (lines 142-161): when no record carries
the id this is a no-op; otherwise the matching record(s) become final
with the given grade (`_update_index_row` rewrites every matching row). -/
def DataStore.finalize_episode (ds : DataStore) (episode_id : String)
    (grade : ℤ) : DataStore :=
  { episodes := ds.episodes.map fun e =>
      if e.episode_id = episode_id then
        { e with status := "final", grade := some grade }
      else e }

/-- `ableton_bridge.FeedbackManager` (src/real-time/ableton_bridge.py
lines 123-155): the pending-episode guard around the datastore. -/
structure FeedbackManager where
  current_episode_id : Option String := none
  waiting_for_commit : Bool := false
  latest_grade : Option ℤ := none
deriving DecidableEq, Repr

/-- `FeedbackManager.record_generation` (lines 131-139): while an episode
is awaiting commit, return `None` and change nothing; otherwise create a
draft episode and remember it as pending. -/
def FeedbackManager.record_generation (fm : FeedbackManager) (ds : DataStore)
    (episode_id mode : String) : Option String × FeedbackManager × DataStore :=
  if fm.waiting_for_commit then (none, fm, ds)
  else
    let (ds1, eid) := ds.create_episode episode_id mode
    (some eid,
     { fm with current_episode_id := some eid, waiting_for_commit := true },
     ds1)

/-- `FeedbackManager.set_grade` (lines 141-143). -/
def FeedbackManager.set_grade (fm : FeedbackManager) (g : ℤ) : FeedbackManager :=
  { fm with latest_grade := some g }

/-- `FeedbackManager.commit` (lines 145-155): without a pending episode
this is a no-op; otherwise finalize it with the latest grade (0 when none
was set) and clear the pending slot. -/
def FeedbackManager.commit (fm : FeedbackManager) (ds : DataStore) :
    FeedbackManager × DataStore :=
  if ¬ fm.waiting_for_commit ∨ fm.current_episode_id = none then (fm, ds)
  else
    match fm.current_episode_id with
    | some eid =>
        let ds1 := ds.finalize_episode eid (fm.latest_grade.getD 0)
        ({ current_episode_id := none, waiting_for_commit := false,
           latest_grade := none }, ds1)
    | none => (fm, ds)

/-- Operations against the feedback manager (each `record` carries the
fresh id the datastore would mint). -/
inductive FeedbackOp where
  | record (freshId mode : String)
  | grade (g : ℤ)
  | commit
deriving DecidableEq, Repr

/-- Apply one operation to the manager/store pair. -/
def feedbackStep (s : FeedbackManager × DataStore) :
    FeedbackOp → FeedbackManager × DataStore
  | FeedbackOp.record freshId mode =>
      let (_, fm1, ds1) := s.1.record_generation s.2 freshId mode
      (fm1, ds1)
  | FeedbackOp.grade g => (s.1.set_grade g, s.2)
  | FeedbackOp.commit => s.1.commit s.2

/-- The initial manager/store pair: nothing pending, empty index. -/
def feedbackInit : FeedbackManager × DataStore :=
  ({ current_episode_id := none, waiting_for_commit := false,
     latest_grade := none },
   { episodes := [] })

/-- Run a list of operations from a starting pair. -/
def feedbackRunFrom (s : FeedbackManager × DataStore) (ops : List FeedbackOp) :
    FeedbackManager × DataStore :=
  ops.foldl feedbackStep s

/-- Ids of the open (draft, unfinalized) episodes in the index. -/
def openDraftIds (ds : DataStore) : List String :=
  (ds.episodes.filter fun e => e.status = "draft").map (·.episode_id)

/-- The single-open-episode invariant: with nothing awaiting commit the
index holds no draft; with an episode awaiting commit the drafts are
exactly the pending id. -/
def FeedbackInv (s : FeedbackManager × DataStore) : Prop :=
  (s.1.waiting_for_commit = false → openDraftIds s.2 = []) ∧
  (s.1.waiting_for_commit = true →
    ∃ eid, s.1.current_episode_id = some eid ∧ openDraftIds s.2 = [eid])

/-- A note-on event (velocity 64) at the given monotonic time, for the
concrete scenarios below. -/
def exNoteOn (t : ℚ) : TimestampedMidiMsg :=
  { msg_type := "note_on", timestamp := t, note := some 60, velocity := some 64 }

/-- A note-off event at 3.5 s, past the one-bar cutoff of the trimming
scenario. -/
def exNoteOffLate : TimestampedMidiMsg :=
  { msg_type := "note_off", timestamp := 7/2, note := some 60, velocity := some 0 }

/-- The sampling state the bridge constructs by default
(`--temperature 0.9 --top_p 0.95`, no min_p). -/
def exSamplingDefault : SamplingState := SamplingState.init (9/10) (19/20) none

/-- A manual-mode session mid-recording (one captured note-on, recording
started at t = 1, fully wired for UI/OSC with ports open). -/
def exSession : ManualSession :=
  { play_gate := true, pending_output_path := none, recorded := [exNoteOn 1],
    start_time := some 1, stop_time := none, recording_flag := true,
    cancel_event := false, state := "IDLE", max_seconds := none,
    max_bars := none, beats_per_bar := 4, ticks_per_beat := 480,
    gen_seconds := 1, max_new_tokens := none, play_key := "p",
    sampling_state := some exSamplingDefault,
    session_state := some {}, has_command_queue := true, has_out_port := true,
    has_osc_status_cb := true, has_osc_log_cb := true, has_osc_params_cb := true }

/-- The trimming scenario: `--max-bars 1`, four quarter-note onsets from
t = 1 at 120 BPM plus a late note-off at t = 3.5. -/
def exSessionTrim : ManualSession :=
  { exSession with
      max_bars := some 1
      recorded := [exNoteOn 1, exNoteOn (3/2), exNoteOn 2, exNoteOn (5/2),
        exNoteOffLate] }

/-- A session constructed with the `play_gate` argument `False` and then
brought to a mid-recording state (ports open, one captured note-on). -/
def exSessionGateOff : ManualSession :=
  { (ManualSession.init 480 1 none none 4 none none (some exSamplingDefault)
      (some {}) true true true true false) with
      recorded := [exNoteOn 1]
      start_time := some 1
      recording_flag := true
      has_out_port := true }

/-- The shared session state while an output is pending (status READY). -/
def exReadySessionState : SessionState :=
  { status := "READY", last_output_path := some "out.mid",
    has_pending_output := true }

/-- A session holding a pending generated artifact in the READY phase. -/
def exSessionReady : ManualSession :=
  { exSession with
      pending_output_path := some "out.mid"
      recording_flag := false
      session_state := some exReadySessionState }

/-- Startup snapshot where the peer pushed temperature and tokens but
never pushed the nucleus threshold. -/
def exSnapA : StartupSnapshot :=
  { temp := some 1, top_p := none, min_p := some (1/10), tokens := some 512 }

/-- Startup snapshot where the peer pushed the nucleus threshold and
tokens but never pushed the temperature. -/
def exSnapB : StartupSnapshot :=
  { temp := none, top_p := some (19/20), min_p := some (1/10),
    tokens := some 512 }

/-- Local sampling values current at startup in the handshake scenario. -/
def exSamplingSync : SamplingState := SamplingState.init 1 (19/20) (some (1/10))

/-- A feedback manager with an episode still awaiting finalization. -/
def exFmPending : FeedbackManager :=
  { current_episode_id := some "e1", waiting_for_commit := true,
    latest_grade := none }

/-- The single open draft record of the pending scenario. -/
def exDraftRec : EpisodeRec :=
  { episode_id := "e1", status := "draft", grade := none, mode := "manual" }

/-- The index while that episode is open. -/
def exDsPending : DataStore := { episodes := [exDraftRec] }

theorem lower_le_clamp (v lo hi : ℚ) : lo ≤ clamp v lo hi :=
  le_max_left _ _

theorem clamp_le_upper (v lo hi : ℚ) (h : lo ≤ hi) : clamp v lo hi ≤ hi :=
  max_le h (min_le_left _ _)

theorem publishedStatuses_append (a b : List Eff) :
    publishedStatuses (a ++ b) = publishedStatuses a ++ publishedStatuses b := by
  simp [publishedStatuses]

theorem playsOf_append (a b : List Eff) :
    playsOf (a ++ b) = playsOf a ++ playsOf b := by
  simp [playsOf]

theorem genCallPrompts_append (a b : List Eff) :
    genCallPrompts (a ++ b) = genCallPrompts a ++ genCallPrompts b := by
  simp [genCallPrompts]

theorem playsOf_nil : playsOf [] = [] := rfl

theorem playsOf_cons_setStatus (x : String) (l : List Eff) :
    playsOf (Eff.setStatus x :: l) = playsOf l := rfl

theorem playsOf_cons_oscStatus (x : String) (l : List Eff) :
    playsOf (Eff.oscStatus x :: l) = playsOf l := rfl

theorem playsOf_cons_oscLog (x : String) (l : List Eff) :
    playsOf (Eff.oscLog x :: l) = playsOf l := rfl

theorem playsOf_cons_oscParams (l : List Eff) :
    playsOf (Eff.oscParams :: l) = playsOf l := rfl

theorem playsOf_cons_logUi (x : String) (l : List Eff) :
    playsOf (Eff.logUi x :: l) = playsOf l := rfl

theorem playsOf_cons_genCall (p : PromptWindow) (d : ℤ) (h : ℚ) (t tp : ℚ)
    (mp : Option ℚ) (mnt : Option ℕ) (l : List Eff) :
    playsOf (Eff.genCall p d h t tp mp mnt :: l) = playsOf l := rfl

theorem playsOf_cons_play (p : String) (l : List Eff) :
    playsOf (Eff.play p :: l) = p :: playsOf l := rfl

theorem playsOf_cons_unlink (p : String) (l : List Eff) :
    playsOf (Eff.unlink p :: l) = playsOf l := rfl

theorem playsOf_cons_unlinkPrompt (p : PromptWindow) (l : List Eff) :
    playsOf (Eff.unlinkPrompt p :: l) = playsOf l := rfl

theorem genCallPrompts_nil : genCallPrompts [] = [] := rfl

theorem genCallPrompts_cons_setStatus (x : String) (l : List Eff) :
    genCallPrompts (Eff.setStatus x :: l) = genCallPrompts l := rfl

theorem genCallPrompts_cons_oscStatus (x : String) (l : List Eff) :
    genCallPrompts (Eff.oscStatus x :: l) = genCallPrompts l := rfl

theorem genCallPrompts_cons_oscLog (x : String) (l : List Eff) :
    genCallPrompts (Eff.oscLog x :: l) = genCallPrompts l := rfl

theorem genCallPrompts_cons_oscParams (l : List Eff) :
    genCallPrompts (Eff.oscParams :: l) = genCallPrompts l := rfl

theorem genCallPrompts_cons_logUi (x : String) (l : List Eff) :
    genCallPrompts (Eff.logUi x :: l) = genCallPrompts l := rfl

theorem genCallPrompts_cons_genCall (p : PromptWindow) (d : ℤ) (h : ℚ)
    (t tp : ℚ) (mp : Option ℚ) (mnt : Option ℕ) (l : List Eff) :
    genCallPrompts (Eff.genCall p d h t tp mp mnt :: l) =
      p :: genCallPrompts l := rfl

theorem genCallPrompts_cons_play (p : String) (l : List Eff) :
    genCallPrompts (Eff.play p :: l) = genCallPrompts l := rfl

theorem genCallPrompts_cons_unlink (p : String) (l : List Eff) :
    genCallPrompts (Eff.unlink p :: l) = genCallPrompts l := rfl

theorem genCallPrompts_cons_unlinkPrompt (p : PromptWindow) (l : List Eff) :
    genCallPrompts (Eff.unlinkPrompt p :: l) = genCallPrompts l := rfl

theorem publishedStatuses_oscStatus_ite (c : Bool) (x : String) :
    publishedStatuses (if c then [Eff.oscStatus x] else []) = [] := by
  cases c <;> rfl

theorem publishedStatuses_oscParams_ite (c : Bool) :
    publishedStatuses (if c then [Eff.oscParams] else []) = [] := by
  cases c <;> rfl

theorem publishedStatuses_oscLog_ite (c : Bool) (x : String) :
    publishedStatuses (if c then [Eff.oscLog x] else []) = [] := by
  cases c <;> rfl

theorem playsOf_oscStatus_ite (c : Bool) (x : String) :
    playsOf (if c then [Eff.oscStatus x] else []) = [] := by
  cases c <;> rfl

theorem playsOf_oscParams_ite (c : Bool) :
    playsOf (if c then [Eff.oscParams] else []) = [] := by
  cases c <;> rfl

theorem playsOf_oscLog_ite (c : Bool) (x : String) :
    playsOf (if c then [Eff.oscLog x] else []) = [] := by
  cases c <;> rfl

theorem genCallPrompts_oscStatus_ite (c : Bool) (x : String) :
    genCallPrompts (if c then [Eff.oscStatus x] else []) = [] := by
  cases c <;> rfl

theorem genCallPrompts_oscParams_ite (c : Bool) :
    genCallPrompts (if c then [Eff.oscParams] else []) = [] := by
  cases c <;> rfl

theorem genCallPrompts_oscLog_ite (c : Bool) (x : String) :
    genCallPrompts (if c then [Eff.oscLog x] else []) = [] := by
  cases c <;> rfl

/-- C7: for every beatsPerBar b ≥ 1 and measures m ≥ 1, the clock grid
exposes pulsesPerBar = 24·b and pulsesPerBlock = 24·b·m as pure integer
functions of the configuration, with no rounding. -/
theorem c7_pulse_counts (clock_port_name : String) (b m : ℕ)
    (hb : 1 ≤ b) (hm : 1 ≤ m) :
    (ClockGrid.mk clock_port_name m b).get_pulses_per_bar = 24 * b ∧
    (ClockGrid.mk clock_port_name m b).get_pulses_per_block = 24 * b * m := by
  constructor
  · simp [ClockGrid.get_pulses_per_bar, PULSES_PER_QUARTER, Nat.mul_comm]
  · simp only [ClockGrid.get_pulses_per_block, ClockGrid.get_pulses_per_bar,
      PULSES_PER_QUARTER]
    ring

/-- Witness for C7 at b = 4, m = 2 (the spec's 96/192 example). -/
theorem c7_pulse_counts_witness :
    (1 ≤ 4 ∧ 1 ≤ 2) ∧
    ((ClockGrid.mk "ARIA_CLOCK" 2 4).get_pulses_per_bar = 24 * 4 ∧
     (ClockGrid.mk "ARIA_CLOCK" 2 4).get_pulses_per_block = 24 * 4 * 2) :=
  ⟨⟨by decide, by decide⟩, c7_pulse_counts "ARIA_CLOCK" 4 2 (by decide) (by decide)⟩

/-- C10: the sampling-state constructor stores temperature, top_p and
min_p without clamping (a `None` min_p becomes 0.0), so out-of-range
values such as temperature 5.0 are observable through the atomic read;
the documented ranges are enforced by the increment/decrement operations
only. -/
theorem c10_init_stores_unclamped :
    (∀ t tp mp : ℚ, (SamplingState.init t tp (some mp)).get_values = (t, tp, mp)) ∧
    (∀ t tp : ℚ, (SamplingState.init t tp none).get_values = (t, tp, 0)) ∧
    (SamplingState.init 5 (19/20) none).get_values = (5, 19/20, 0) ∧
    (∀ s : SamplingState,
      (1/10 ≤ s.increase_temperature.temperature ∧
        s.increase_temperature.temperature ≤ 2) ∧
      (1/10 ≤ s.decrease_temperature.temperature ∧
        s.decrease_temperature.temperature ≤ 2) ∧
      (1/10 ≤ s.increase_top_p.top_p ∧ s.increase_top_p.top_p ≤ 1) ∧
      (1/10 ≤ s.decrease_top_p.top_p ∧ s.decrease_top_p.top_p ≤ 1) ∧
      (0 ≤ s.increase_min_p.min_p ∧ s.increase_min_p.min_p ≤ 2/10) ∧
      (0 ≤ s.decrease_min_p.min_p ∧ s.decrease_min_p.min_p ≤ 2/10)) := by
  refine ⟨fun t tp mp => rfl, fun t tp => rfl, rfl, fun s => ?_⟩
  refine ⟨⟨?_, ?_⟩, ⟨?_, ?_⟩, ⟨?_, ?_⟩, ⟨?_, ?_⟩, ⟨?_, ?_⟩, ⟨?_, ?_⟩⟩ <;>
    first
      | exact lower_le_clamp _ _ _
      | exact clamp_le_upper _ _ _ (by norm_num)

theorem filterMap_deltas (l : List (ℚ × ℚ)) :
    (l.filterMap fun ab => if ab.1 < ab.2 then some (ab.2 - ab.1) else none) =
      (l.map fun ab => ab.2 - ab.1).filter fun d => 0 < d := by
  induction l with
  | nil => rfl
  | cons ab rest ih =>
      by_cases h : ab.1 < ab.2
      · have h2 : (0 : ℚ) < ab.2 - ab.1 := sub_pos.mpr h
        simp [List.filterMap_cons, h, h2, ih]
      · have h2 : ¬ (0 : ℚ) < ab.2 - ab.1 := fun hc => h (sub_pos.mp hc)
        simp [List.filterMap_cons, h, h2, ih]

theorem clamp_flip (x : ℚ) : max 30 (min x 240) = min (max x 30) 240 := by
  rw [max_min_distrib_left, max_comm (30 : ℚ) x]
  norm_num

/-- C5: tempo inference returns 60 divided by the median of the strictly
positive inter-onset deltas clamped to [30, 240] (stated as equality with
the spec-worded estimator, which also returns none for fewer than two
onsets or no positive delta), and on onsets 0, 0.5, 1, 1.5 seconds it
returns exactly 120. -/
theorem c5_tempo_inference :
    (∀ messages : List TimestampedMidiMsg,
      infer_bpm_from_onsets messages = spec_tempo_estimate messages) ∧
    infer_bpm_from_onsets [exNoteOn 0, exNoteOn (1/2), exNoteOn 1, exNoteOn (3/2)]
      = some 120 := by
  constructor
  · intro messages
    dsimp only [infer_bpm_from_onsets, spec_tempo_estimate]
    rw [filterMap_deltas]
    by_cases h1 :
        (messages.filter fun m =>
          m.msg_type = "note_on" && velTruthy m.velocity).length < 2
    · simp [h1]
    · by_cases h2 :
          ((((messages.filter fun m =>
              m.msg_type = "note_on" && velTruthy m.velocity).map (·.timestamp)).zip
            ((messages.filter fun m =>
              m.msg_type = "note_on" && velTruthy m.velocity).map
                (·.timestamp)).tail).map fun ab => ab.2 - ab.1).filter
            (fun d => 0 < d) = []
      · simp [h1, h2]
      · simp [h1, h2, clamp_flip]
  · norm_num [infer_bpm_from_onsets, exNoteOn, velTruthy, median,
      List.insertionSort, List.orderedInsert, List.filterMap_cons]
    intro h
    simp at h

/-- C4: the adapter coerces a coercible record payload to a 0/1 level and
enqueues nothing when the level repeats the last-seen level, is 1 while
recording, or is 0 while not recording; otherwise level 1 enqueues a
record-start command and level 0 enqueues a record-stop command. -/
theorem c4_record_level_gate (ss : SessionState) (v : OscVal)
    (rest : List OscVal) (flag : ℕ) (hflag : coerce_flag v = some flag) :
    (flag = 0 ∨ flag = 1) ∧
    enqueuedCmds (handle_record ss (v :: rest)).2 =
      (if ss.last_record_level = some flag ∨ (flag = 1 ∧ ss.is_recording = true) ∨
          (flag = 0 ∧ ss.is_recording = false) then []
       else if flag = 1 then [Command.record_start] else [Command.record_stop]) := by
  have hf01 : flag = 0 ∨ flag = 1 := by
    rcases v with x | s | _
    · simp only [coerce_flag] at hflag
      split at hflag <;> simp_all
    · simp only [coerce_flag] at hflag
      split at hflag
      · simp_all
      · split at hflag <;> simp_all
    · simp [coerce_flag] at hflag
  refine ⟨hf01, ?_⟩
  simp only [handle_record, hflag]
  rcases hf01 with h0 | hone
  · subst h0
    by_cases hl : ss.last_record_level = some 0
    · simp [hl, enqueuedCmds]
    · rcases Bool.eq_false_or_eq_true ss.is_recording with hb | hb
      · simp [hl, hb, enqueuedCmds]
      · simp [hl, hb, enqueuedCmds]
  · subst hone
    by_cases hl : ss.last_record_level = some 1
    · simp [hl, enqueuedCmds]
    · rcases Bool.eq_false_or_eq_true ss.is_recording with hb | hb
      · simp [hl, hb, enqueuedCmds]
      · simp [hl, hb, enqueuedCmds]

/-- Witness for C4: payload 1.0 while idle with no previous level enqueues
a record-start command. -/
theorem c4_record_level_gate_witness :
    coerce_flag (OscVal.num 1) = some 1 ∧
    ((1 = 0 ∨ 1 = 1) ∧
     enqueuedCmds (handle_record ({} : SessionState) [OscVal.num 1]).2 =
       (if ({} : SessionState).last_record_level = some 1 ∨
            (1 = 1 ∧ ({} : SessionState).is_recording = true) ∨
            (1 = 0 ∧ ({} : SessionState).is_recording = false) then []
        else if 1 = 1 then [Command.record_start] else [Command.record_stop])) :=
  ⟨by norm_num [coerce_flag],
   c4_record_level_gate {} (OscVal.num 1) [] 1 (by norm_num [coerce_flag])⟩

/-- C8 (amended): every parameter value the peer pushed before the
deadline is applied to the shared sampling/session state through the
clamped absolute setters, every value not pushed falls back to the local
current value; the adapter logs only a generic warning when anything was
missing (not naming which values were defaulted) plus the final applied
state. -/
theorem c8_startup_sync_applies_and_defaults (snap : StartupSnapshot)
    (sampling : SamplingState) (session : SessionState) :
    (∀ v : ℚ, snap.temp = some v →
      (sync_state_on_startup snap sampling session).sampling.temperature =
        clamp v (1/10) 2) ∧
    (snap.temp = none →
      (sync_state_on_startup snap sampling session).sampling.temperature =
        clamp sampling.temperature (1/10) 2) ∧
    (∀ v : ℚ, snap.top_p = some v →
      (sync_state_on_startup snap sampling session).sampling.top_p =
        clamp v (1/10) 1) ∧
    (snap.top_p = none →
      (sync_state_on_startup snap sampling session).sampling.top_p =
        clamp sampling.top_p (1/10) 1) ∧
    (∀ v : ℚ, snap.min_p = some v →
      (sync_state_on_startup snap sampling session).sampling.min_p =
        clamp v 0 (2/10)) ∧
    (snap.min_p = none →
      (sync_state_on_startup snap sampling session).sampling.min_p =
        clamp sampling.min_p 0 (2/10)) ∧
    (∀ t : ℤ, snap.tokens = some t →
      (sync_state_on_startup snap sampling session).session.max_tokens = some t) ∧
    (snap.tokens = none →
      (sync_state_on_startup snap sampling session).session.max_tokens =
        session.max_tokens) ∧
    (sync_state_on_startup snap sampling session).logs =
      (if missingKeys snap = [] then [] else [SyncLog.warnNoState]) ++
        [SyncLog.syncComplete (sync_state_on_startup snap sampling session).stateTemp
          (sync_state_on_startup snap sampling session).stateTopP
          (sync_state_on_startup snap sampling session).stateMinP
          (sync_state_on_startup snap sampling session).stateTokens] := by
  refine ⟨?_, ?_, ?_, ?_, ?_, ?_, ?_, ?_, ?_⟩
  · intro v hv
    simp [sync_state_on_startup, hv, SamplingState.get_values,
      SamplingState.set_temperature, SamplingState.set_top_p, SamplingState.set_min_p]
  · intro hv
    simp [sync_state_on_startup, hv, SamplingState.get_values,
      SamplingState.set_temperature, SamplingState.set_top_p, SamplingState.set_min_p]
  · intro v hv
    simp [sync_state_on_startup, hv, SamplingState.get_values,
      SamplingState.set_temperature, SamplingState.set_top_p, SamplingState.set_min_p]
  · intro hv
    simp [sync_state_on_startup, hv, SamplingState.get_values,
      SamplingState.set_temperature, SamplingState.set_top_p, SamplingState.set_min_p]
  · intro v hv
    simp [sync_state_on_startup, hv, SamplingState.get_values,
      SamplingState.set_temperature, SamplingState.set_top_p, SamplingState.set_min_p]
  · intro hv
    simp [sync_state_on_startup, hv, SamplingState.get_values,
      SamplingState.set_temperature, SamplingState.set_top_p, SamplingState.set_min_p]
  · intro t ht
    simp [sync_state_on_startup, ht, SessionState.set_max_tokens,
      SessionState.get_max_tokens]
  · intro ht
    rcases hmt : session.max_tokens with _ | t <;>
      simp [sync_state_on_startup, ht, hmt, SessionState.set_max_tokens,
        SessionState.get_max_tokens]
  · rfl

/-- Witness for C8: the peer pushed temperature 1.0, which the adapter
applies through the clamped setter. -/
theorem c8_startup_sync_witness :
    exSnapA.temp = some 1 ∧
    (sync_state_on_startup exSnapA exSamplingSync
      ({} : SessionState)).sampling.temperature = clamp 1 (1/10) 2 :=
  ⟨rfl, (c8_startup_sync_applies_and_defaults exSnapA exSamplingSync {}).1 1 rfl⟩

/-- C8 counterexample: two startup runs that default different parameter
sets (run A received temp but not top_p; run B received top_p but not
temp) emit identical log lines, so the logs cannot tell which values were
defaulted versus received. -/
theorem c8_logging_counterexample :
    (sync_state_on_startup exSnapA exSamplingSync ({} : SessionState)).logs =
      (sync_state_on_startup exSnapB exSamplingSync ({} : SessionState)).logs ∧
    exSnapA.temp ≠ exSnapB.temp ∧ exSnapA.top_p ≠ exSnapB.top_p ∧
    missingKeys exSnapA ≠ missingKeys exSnapB := by
  refine ⟨?_, by decide, by decide, by decide⟩
  simp [sync_state_on_startup, exSnapA, exSnapB, exSamplingSync, SamplingState.init,
    SamplingState.get_values, SamplingState.set_temperature, SamplingState.set_top_p,
    SamplingState.set_min_p, SessionState.get_max_tokens, SessionState.set_max_tokens,
    missingKeys, clamp]

theorem draft_ids_all (l : List EpisodeRec) (eid : String)
    (h : (l.filter fun e => e.status = "draft").map (·.episode_id) = [eid]) :
    ∀ e ∈ l, e.status = "draft" → e.episode_id = eid := by
  intro e he hd
  have hmem : e ∈ l.filter fun e => e.status = "draft" :=
    List.mem_filter.mpr ⟨he, by simp [hd]⟩
  have hmem2 : e.episode_id ∈
      (l.filter fun e => e.status = "draft").map (·.episode_id) :=
    List.mem_map_of_mem _ hmem
  rw [h] at hmem2
  simpa using hmem2

theorem openDraftIds_finalize (ds : DataStore) (eid : String) (g : ℤ)
    (h : ∀ e ∈ ds.episodes, e.status = "draft" → e.episode_id = eid) :
    openDraftIds (ds.finalize_episode eid g) = [] := by
  obtain ⟨l⟩ := ds
  simp only [DataStore.finalize_episode, openDraftIds, List.map_eq_nil_iff]
  rw [List.filter_eq_nil_iff]
  intro e he
  simp only [List.mem_map] at he
  obtain ⟨a, ha, hae⟩ := he
  by_cases hid : a.episode_id = eid
  · subst hae
    simp [hid]
  · subst hae
    simp only [hid, if_false]
    intro hda
    exact hid (h a ha (by simpa using hda))

theorem openDraftIds_append_draft (l : List EpisodeRec) (d : EpisodeRec)
    (hd : d.status = "draft") :
    openDraftIds { episodes := l ++ [d] } =
      openDraftIds { episodes := l } ++ [d.episode_id] := by
  simp [openDraftIds, List.filter_append, hd]

theorem feedbackInv_init : FeedbackInv feedbackInit := by
  constructor
  · intro _
    rfl
  · intro h
    simp [feedbackInit] at h

theorem feedbackInv_step (s : FeedbackManager × DataStore) (op : FeedbackOp)
    (h : FeedbackInv s) : FeedbackInv (feedbackStep s op) := by
  rcases op with ⟨fid, mode⟩ | g | _
  · rcases hw : s.1.waiting_for_commit with _ | _
    · have hopen := h.1 hw
      constructor
      · intro hfalse
        simp [feedbackStep, FeedbackManager.record_generation, hw,
          DataStore.create_episode] at hfalse
      · intro _
        refine ⟨fid, ?_, ?_⟩
        · simp [feedbackStep, FeedbackManager.record_generation, hw,
            DataStore.create_episode]
        · have : feedbackStep s (FeedbackOp.record fid mode) =
              (⟨some fid, true, s.1.latest_grade⟩,
               ⟨s.2.episodes ++ [⟨fid, "draft", none, mode⟩]⟩) := by
            simp [feedbackStep, FeedbackManager.record_generation, hw,
              DataStore.create_episode]
          rw [this]
          have happ := openDraftIds_append_draft s.2.episodes
            ⟨fid, "draft", none, mode⟩ rfl
          have hopen2 : openDraftIds s.2 = [] := hopen
          simp only [happ]
          rw [show ({ episodes := s.2.episodes } : DataStore) = s.2 from rfl]
          rw [hopen2]
          rfl
    · constructor
      · intro hfalse
        simp [feedbackStep, FeedbackManager.record_generation, hw] at hfalse
      · intro _
        obtain ⟨eid, hcur, hopen⟩ := h.2 hw
        refine ⟨eid, ?_, ?_⟩ <;>
          simp [feedbackStep, FeedbackManager.record_generation, hw, hcur, hopen]
  · constructor
    · intro hfalse
      exact h.1 (by simpa [feedbackStep, FeedbackManager.set_grade] using hfalse)
    · intro htrue
      obtain ⟨eid, hcur, hopen⟩ := h.2
        (by simpa [feedbackStep, FeedbackManager.set_grade] using htrue)
      exact ⟨eid, by simpa [feedbackStep, FeedbackManager.set_grade] using hcur,
        by simpa [feedbackStep, FeedbackManager.set_grade] using hopen⟩
  · rcases hw : s.1.waiting_for_commit with _ | _
    · have hopen := h.1 hw
      constructor
      · intro _
        simpa [feedbackStep, FeedbackManager.commit, hw] using hopen
      · intro htrue
        simp [feedbackStep, FeedbackManager.commit, hw] at htrue
    · obtain ⟨eid, hcur, hopen⟩ := h.2 hw
      have hfin : feedbackStep s FeedbackOp.commit =
          (⟨none, false, none⟩, s.2.finalize_episode eid (s.1.latest_grade.getD 0)) := by
        simp [feedbackStep, FeedbackManager.commit, hw, hcur]
      constructor
      · intro _
        rw [hfin]
        exact openDraftIds_finalize s.2 eid _ (draft_ids_all s.2.episodes eid hopen)
      · intro htrue
        rw [hfin] at htrue
        cases htrue

theorem feedbackInv_run (ops : List FeedbackOp) (s : FeedbackManager × DataStore)
    (h : FeedbackInv s) : FeedbackInv (feedbackRunFrom s ops) := by
  induction ops generalizing s with
  | nil => simpa [feedbackRunFrom] using h
  | cons op rest ih =>
      have : feedbackRunFrom s (op :: rest) = feedbackRunFrom (feedbackStep s op) rest := rfl
      rw [this]
      exact ih _ (feedbackInv_step s op h)

/-- C9: beginning an episode while a previous one awaits finalization
returns no id and leaves the manager and index unchanged, and every
operation sequence from the initial state keeps at most one open (draft)
episode in the index. -/
theorem c9_single_open_episode :
    (∀ (fm : FeedbackManager) (ds : DataStore) (eid mode : String),
      fm.waiting_for_commit = true →
      fm.record_generation ds eid mode = (none, fm, ds)) ∧
    (∀ ops : List FeedbackOp,
      (openDraftIds (feedbackRunFrom feedbackInit ops).2).length ≤ 1) := by
  constructor
  · intro fm ds eid mode hw
    simp [FeedbackManager.record_generation, hw]
  · intro ops
    have h := feedbackInv_run ops feedbackInit feedbackInv_init
    rcases hw : (feedbackRunFrom feedbackInit ops).1.waiting_for_commit with _ | _
    · rw [h.1 hw]
      decide
    · obtain ⟨eid, _, hopen⟩ := h.2 hw
      rw [hopen]
      simp

/-- Witness for C9: with an episode pending, beginning another returns no
id and changes nothing; a two-record trace still holds at most one open
draft. -/
theorem c9_single_open_episode_witness :
    exFmPending.waiting_for_commit = true ∧
    exFmPending.record_generation exDsPending "e2" "manual" =
      (none, exFmPending, exDsPending) ∧
    (openDraftIds (feedbackRunFrom feedbackInit
      [FeedbackOp.record "e1" "manual", FeedbackOp.record "e2" "manual"]).2).length ≤ 1 :=
  ⟨rfl,
   c9_single_open_episode.1 exFmPending exDsPending "e2" "manual" rfl,
   c9_single_open_episode.2 [FeedbackOp.record "e1" "manual",
     FeedbackOp.record "e2" "manual"]⟩

theorem drainOne_inert (s : ManualSession) (ev : DrainEvts) (c : Command)
    (hc : c ≠ Command.play) (hcl : c ≠ Command.play_last) :
    playsOf (s.drainOne ev c).2.2 = [] ∧
    (s.drainOne ev c).2.1.playEv = ev.playEv ∧
    (s.drainOne ev c).1.pending_output_path = s.pending_output_path := by
  rcases c with _ | payload | _ | _ | _ | _ | _
  · unfold ManualSession.drainOne
    rcases ev with ⟨st, sa, pl⟩
    rcases hb : s.recording_flag with _ | _ <;>
      rcases st with _ | b1 <;> rcases sa with _ | b2 <;> simp [hb, playsOf]
  · unfold ManualSession.drainOne
    rcases ev with ⟨st, sa, pl⟩
    rcases payload with _ | _ <;>
      rcases hb : s.recording_flag with _ | _ <;>
        rcases st with _ | b1 <;> rcases sa with _ | b2 <;> simp [hb, playsOf]
  · unfold ManualSession.drainOne
    rcases ev with ⟨st, sa, pl⟩
    rcases hb : s.recording_flag with _ | _ <;>
      rcases st with _ | b1 <;> rcases sa with _ | b2 <;> simp [hb, playsOf]
  · unfold ManualSession.drainOne
    rcases ev with ⟨st, sa, pl⟩
    rcases hb : s.recording_flag with _ | _ <;>
      rcases st with _ | b1 <;> rcases sa with _ | b2 <;> simp [hb, playsOf]
  · unfold ManualSession.drainOne
    rcases ev with ⟨st, sa, pl⟩
    rcases hs : s.session_state with _ | ss <;>
      rcases st with _ | b1 <;> simp [hs, playsOf]
  · exact absurd rfl hcl
  · exact absurd rfl hc

theorem drainGo_no_play (cmds : List Command) (s : ManualSession) (ev : DrainEvts)
    (b : Bool) (hev : ev.playEv = some b)
    (hp : Command.play ∉ cmds) (hpl : Command.play_last ∉ cmds) :
    playsOf (s.drainGo ev cmds).2.2 = [] ∧
    (s.drainGo ev cmds).2.1.playEv = some b ∧
    (s.drainGo ev cmds).1.pending_output_path = s.pending_output_path := by
  induction cmds generalizing s ev with
  | nil => simp [ManualSession.drainGo, hev, playsOf]
  | cons c rest ih =>
      have hcp : c ≠ Command.play := fun h => hp (h ▸ List.mem_cons_self c rest)
      have hcpl : c ≠ Command.play_last := fun h => hpl (h ▸ List.mem_cons_self c rest)
      have hp' : Command.play ∉ rest := fun h => hp (List.mem_cons_of_mem _ h)
      have hpl' : Command.play_last ∉ rest := fun h => hpl (List.mem_cons_of_mem _ h)
      obtain ⟨h3, h1, h2⟩ := drainOne_inert s ev c hcp hcpl
      obtain ⟨ih1, ih2, ih3⟩ :=
        ih (s.drainOne ev c).1 (s.drainOne ev c).2.1 (by rw [h1, hev]) hp' hpl'
      refine ⟨?_, ?_, ?_⟩
      · show playsOf ((s.drainOne ev c).2.2 ++
          ((s.drainOne ev c).1.drainGo (s.drainOne ev c).2.1 rest).2.2) = []
        rw [playsOf_append, h3, ih1]
        rfl
      · exact ih2
      · rw [show (s.drainGo ev (c :: rest)).1 =
            ((s.drainOne ev c).1.drainGo (s.drainOne ev c).2.1 rest).1 from rfl,
          ih3, h2]

theorem waitForPlay_no_play (s : ManualSession) (cmds : List Command)
    (hc : s.cancel_event = false) (hp : Command.play ∉ cmds)
    (hpl : Command.play_last ∉ cmds) :
    playsOf (s.waitForPlay cmds false).2 = [] ∧
    (s.waitForPlay cmds false).1.pending_output_path = s.pending_output_path := by
  unfold ManualSession.waitForPlay ManualSession.drainCommands
  rcases hq : s.has_command_queue with _ | _
  · simp [hc, hq, playsOf]
  · obtain ⟨hplays, hev, hpend⟩ :=
      drainGo_no_play cmds s { playEv := some false } false rfl hp hpl
    have hng : ¬ ((s.drainGo
        { stopEv := none, startEv := none, playEv := some false }
        cmds).2.1.playEv = some true) := by
      rw [hev]
      simp
    simp [hc, hq, hng, hplays, hpend]

/-- C3 (amended): a cancel command clears the in-progress recording
buffer, clears the has-pending-output flag and forces the session status
to IDLE, but it does not discard the PendingOutput artifact path held by
the session, which survives the cancel. -/
theorem c3_cancel_keeps_pending_path (s : ManualSession) (ss : SessionState)
    (ev : DrainEvts) (hq : s.has_command_queue = true)
    (hsess : s.session_state = some ss) :
    (s.drainCommands [Command.cancel] ev).1.recorded = [] ∧
    ((s.drainCommands [Command.cancel] ev).1.session_state.map (·.status)) =
      some "IDLE" ∧
    ((s.drainCommands [Command.cancel] ev).1.session_state.map
      (·.has_pending_output)) = some false ∧
    (s.drainCommands [Command.cancel] ev).1.pending_output_path =
      s.pending_output_path := by
  simp [ManualSession.drainCommands, ManualSession.drainGo, ManualSession.drainOne,
    hq, hsess]

/-- Witness for C3's amended statement at the READY scenario. -/
theorem c3_cancel_keeps_pending_path_witness :
    exSessionReady.has_command_queue = true ∧
    exSessionReady.session_state = some exReadySessionState ∧
    ((exSessionReady.drainCommands [Command.cancel]
        { playEv := some false }).1.recorded = [] ∧
     ((exSessionReady.drainCommands [Command.cancel]
        { playEv := some false }).1.session_state.map (·.status)) = some "IDLE" ∧
     ((exSessionReady.drainCommands [Command.cancel]
        { playEv := some false }).1.session_state.map (·.has_pending_output)) =
        some false ∧
     (exSessionReady.drainCommands [Command.cancel]
        { playEv := some false }).1.pending_output_path =
        exSessionReady.pending_output_path) :=
  ⟨rfl, rfl, c3_cancel_keeps_pending_path exSessionReady exReadySessionState
    { playEv := some false } rfl rfl⟩

/-- C3 counterexample: in the READY state with a pending artifact, a
cancel command leaves `pending_output_path` holding the artifact (the
claim requires it discarded), and a subsequent play command still sends
that artifact to the output port. -/
theorem c3_pending_retained_counterexample :
    (exSessionReady.drainCommands [Command.cancel]
      { playEv := some false }).1.pending_output_path = some "out.mid" ∧
    some "out.mid" ≠ (none : Option String) ∧
    playsOf (exSessionReady.waitForPlay [Command.cancel, Command.play] false).2 =
      ["out.mid"] := by
  refine ⟨by decide, by decide, by decide⟩

/-- C1 (amended): with a session state wired in and events recorded, the
finish-and-generate step publishes GENERATING, then a transient PLAYING
right after the backend call, and only then READY (artifact case,
play-gate on) or IDLE (failure case): the claimed direct
GENERATING→READY / GENERATING→IDLE transitions have PLAYING in between. -/
theorem c1_transient_playing_published (s : ManualSession) (ss : SessionState)
    (now : ℚ) (gp : String) (waitCmds : List Command) (kb ep : Bool)
    (hsess : s.session_state = some ss) (hrec : s.recorded ≠ [])
    (hgate : s.play_gate = true) :
    (publishedStatuses
      (s.finishRecordingAndGenerate now (some gp) waitCmds kb ep).2).take 3
      = ["GENERATING", "PLAYING", "READY"] ∧
    publishedStatuses (s.finishRecordingAndGenerate now none waitCmds kb ep).2
      = ["GENERATING", "PLAYING", "IDLE"] := by
  constructor <;>
    · unfold ManualSession.finishRecordingAndGenerate
      rcases h1 : s.has_osc_status_cb with _ | _ <;>
        rcases h2 : s.has_osc_params_cb with _ | _ <;>
          simp [hsess, hrec, hgate, h1, h2, publishedStatuses,
            SessionState.set_status]

/-- Witness for C1's amended statement at the concrete session. -/
theorem c1_transient_playing_published_witness :
    exSession.session_state = some ({} : SessionState) ∧
    exSession.recorded ≠ [] ∧ exSession.play_gate = true ∧
    ((publishedStatuses
        (exSession.finishRecordingAndGenerate 3 (some "out.mid") [] false
          false).2).take 3 = ["GENERATING", "PLAYING", "READY"] ∧
     publishedStatuses
        (exSession.finishRecordingAndGenerate 3 none [] false false).2
        = ["GENERATING", "PLAYING", "IDLE"]) :=
  ⟨rfl, by decide, rfl,
   c1_transient_playing_published exSession {} 3 "out.mid" [] false false rfl
     (by decide) rfl⟩

/-- C1 counterexample: concretely, the published status sequence with an
artifact is GENERATING, PLAYING, READY (not the claimed direct
GENERATING, READY), and with no artifact it is GENERATING, PLAYING, IDLE
(not the claimed direct GENERATING, IDLE). -/
theorem c1_direct_transition_counterexample :
    publishedStatuses
      (exSession.finishRecordingAndGenerate 3 (some "out.mid") [] false false).2
      = ["GENERATING", "PLAYING", "READY"] ∧
    (["GENERATING", "PLAYING", "READY"] : List String) ≠ ["GENERATING", "READY"] ∧
    publishedStatuses
      (exSession.finishRecordingAndGenerate 3 none [] false false).2
      = ["GENERATING", "PLAYING", "IDLE"] ∧
    (["GENERATING", "PLAYING", "IDLE"] : List String) ≠ ["GENERATING", "IDLE"] := by
  refine ⟨by decide, by decide, by decide, by decide⟩

/-- C2 (amended): the play-gate cannot be configured off — the
constructor ignores its `play_gate` argument and always enables the gate
— so playback is never automatic: after a successful generation with no
play trigger (no play key press, no play or play-last command) nothing is
sent to the output port and the artifact stays held as pending output. -/
theorem c2_play_gate_cannot_be_disabled
    (ticks_per_beat : ℕ) (gen_seconds : ℚ) (max_seconds : Option ℚ)
    (max_bars : Option ℕ) (beats_per_bar : ℕ) (max_new_tokens : Option ℕ)
    (play_key : Option String) (sampling_state : Option SamplingState)
    (session_state : Option SessionState) (hq hcb hlb hpb pg : Bool)
    (s : ManualSession) (ss : SessionState) (now : ℚ) (gp : String)
    (waitCmds : List Command) (ep : Bool)
    (hsess : s.session_state = some ss) (hrec : s.recorded ≠ [])
    (hcancel : s.cancel_event = false) (hgate : s.play_gate = true)
    (hp : Command.play ∉ waitCmds) (hpl : Command.play_last ∉ waitCmds) :
    (ManualSession.init ticks_per_beat gen_seconds max_seconds max_bars
      beats_per_bar max_new_tokens play_key sampling_state session_state
      hq hcb hlb hpb pg).play_gate = true ∧
    playsOf (s.finishRecordingAndGenerate now (some gp) waitCmds false ep).2
      = [] ∧
    (s.finishRecordingAndGenerate now (some gp) waitCmds false
      ep).1.pending_output_path = some gp := by
  refine ⟨rfl, ?_, ?_⟩ <;>
    · unfold ManualSession.finishRecordingAndGenerate
      rcases h1 : s.has_osc_status_cb with _ | _ <;>
        rcases h2 : s.has_osc_params_cb with _ | _ <;>
          simp [hsess, hrec, hgate, h1, h2, playsOf_nil, playsOf_append,
            playsOf_cons_setStatus, playsOf_cons_oscStatus, playsOf_cons_oscLog,
            playsOf_cons_oscParams, playsOf_cons_logUi, playsOf_cons_genCall,
            waitForPlay_no_play, hcancel, hp, hpl]

/-- Witness for C2's amended statement at the concrete session. -/
theorem c2_play_gate_cannot_be_disabled_witness :
    exSession.session_state = some ({} : SessionState) ∧
    exSession.recorded ≠ [] ∧ exSession.cancel_event = false ∧
    exSession.play_gate = true ∧ Command.play ∉ ([] : List Command) ∧
    Command.play_last ∉ ([] : List Command) ∧
    ((ManualSession.init 480 1 none none 4 none none (some exSamplingDefault)
        (some {}) true true true true false).play_gate = true ∧
     playsOf (exSession.finishRecordingAndGenerate 3 (some "out.mid") [] false
        false).2 = [] ∧
     (exSession.finishRecordingAndGenerate 3 (some "out.mid") [] false
        false).1.pending_output_path = some "out.mid") :=
  ⟨rfl, by decide, rfl, rfl, by decide, by decide,
   c2_play_gate_cannot_be_disabled 480 1 none none 4 none none
     (some exSamplingDefault) (some {}) true true true true false
     exSession {} 3 "out.mid" [] false rfl (by decide) rfl rfl (by decide)
     (by decide)⟩

/-- C2 counterexample: a session constructed with the play-gate argument
`False` still has the gate enabled, and after a successful generation
with no play trigger the artifact is not sent to the output port — it is
held as pending output instead of being auto-played. -/
theorem c2_auto_play_counterexample :
    (ManualSession.init 480 1 none none 4 none none (some exSamplingDefault)
      (some {}) true true true true false).play_gate = true ∧
    playsOf (exSessionGateOff.finishRecordingAndGenerate 3 (some "out.mid") []
      false false).2 = [] ∧
    (exSessionGateOff.finishRecordingAndGenerate 3 (some "out.mid") [] false
      false).1.pending_output_path = some "out.mid" := by
  refine ⟨by decide, by decide, by decide⟩

theorem handlePlay_no_genCall (s : ManualSession) :
    genCallPrompts s.handlePlayRequest.2.1 = [] := by
  unfold ManualSession.handlePlayRequest
  rcases hg : s.play_gate with _ | _
  · simp [hg, genCallPrompts_nil]
  · simp only [hg]
    split_ifs <;>
      rcases hs : s.session_state with _ | ss <;>
        simp [hs, genCallPrompts_append, genCallPrompts_nil,
          genCallPrompts_cons_logUi, genCallPrompts_cons_play,
          genCallPrompts_cons_oscLog, genCallPrompts_cons_unlink,
          genCallPrompts_cons_setStatus, genCallPrompts_cons_oscStatus]

theorem drainOne_no_genCall (s : ManualSession) (ev : DrainEvts) (c : Command) :
    genCallPrompts (s.drainOne ev c).2.2 = [] := by
  rcases c with _ | payload | _ | _ | _ | _ | _
  · unfold ManualSession.drainOne
    rcases ev with ⟨st, sa, pl⟩
    rcases hb : s.recording_flag with _ | _ <;>
      rcases st with _ | b1 <;> rcases sa with _ | b2 <;>
        simp [hb, genCallPrompts_nil, genCallPrompts_cons_logUi]
  · unfold ManualSession.drainOne
    rcases ev with ⟨st, sa, pl⟩
    rcases payload with _ | _ <;>
      rcases hb : s.recording_flag with _ | _ <;>
        rcases st with _ | b1 <;> rcases sa with _ | b2 <;>
          simp [hb, genCallPrompts_nil, genCallPrompts_cons_logUi]
  · unfold ManualSession.drainOne
    rcases ev with ⟨st, sa, pl⟩
    rcases hb : s.recording_flag with _ | _ <;>
      rcases st with _ | b1 <;> rcases sa with _ | b2 <;>
        simp [hb, genCallPrompts_nil, genCallPrompts_cons_logUi]
  · unfold ManualSession.drainOne
    rcases ev with ⟨st, sa, pl⟩
    rcases hb : s.recording_flag with _ | _ <;>
      rcases st with _ | b1 <;> rcases sa with _ | b2 <;>
        simp [hb, genCallPrompts_nil, genCallPrompts_cons_logUi]
  · unfold ManualSession.drainOne
    rcases ev with ⟨st, sa, pl⟩
    rcases hs : s.session_state with _ | ss <;>
      rcases st with _ | b1 <;>
        simp [hs, genCallPrompts_append, genCallPrompts_nil,
          genCallPrompts_cons_logUi, genCallPrompts_cons_setStatus]
  · unfold ManualSession.drainOne
    rcases hs : s.session_state with _ | ss
    · rfl
    · simp only [hs]
      split
      · simp [genCallPrompts_cons_logUi, genCallPrompts_cons_play,
          genCallPrompts_nil]
      · rfl
  · unfold ManualSession.drainOne
    rcases ev with ⟨st, sa, pl⟩
    rcases pl with _ | bb
    · simpa using handlePlay_no_genCall s
    · rfl

theorem drainGo_no_genCall (cmds : List Command) (s : ManualSession)
    (ev : DrainEvts) : genCallPrompts (s.drainGo ev cmds).2.2 = [] := by
  induction cmds generalizing s ev with
  | nil => rfl
  | cons c rest ih =>
      show genCallPrompts ((s.drainOne ev c).2.2 ++
        ((s.drainOne ev c).1.drainGo (s.drainOne ev c).2.1 rest).2.2) = []
      rw [genCallPrompts_append, drainOne_no_genCall, ih]
      rfl

theorem waitForPlay_no_genCall (s : ManualSession) (cmds : List Command)
    (kb : Bool) : genCallPrompts (s.waitForPlay cmds kb).2 = [] := by
  unfold ManualSession.waitForPlay ManualSession.cleanupCancel
    ManualSession.drainCommands
  rcases hc : s.cancel_event with _ | _
  · rcases hq : s.has_command_queue with _ | _
    · rcases kb with _ | _ <;>
        simp [hc, hq, genCallPrompts_nil, genCallPrompts_append,
          handlePlay_no_genCall]
    · have hd := drainGo_no_genCall cmds s
        { stopEv := none, startEv := none, playEv := some kb }
      simp only [hc, hq]
      simp only [Bool.false_eq_true, not_false_eq_true, if_false, if_true,
        not_true_eq_false, Bool.true_eq_false]
      split
      · simp [genCallPrompts_append, hd, handlePlay_no_genCall]
      · simp [hd]
  · rcases hs : s.session_state with _ | ss <;>
      simp [hc, hs, genCallPrompts_nil, genCallPrompts_cons_setStatus]

theorem infer_bpm_ge_30 (messages : List TimestampedMidiMsg) (b : ℚ)
    (h : infer_bpm_from_onsets messages = some b) : 30 ≤ b := by
  simp only [infer_bpm_from_onsets] at h
  split at h
  · cases h
  · split at h
    · cases h
    · injection h with h
      rw [← h]
      exact le_max_left _ _

/-- C6: with a max-bars limit set, a tempo inferred, and the recording
duration exceeding maxBars·beatsPerBar·60/bpm seconds, the prompt handed
to the generation backend carries exactly the recorded events whose
timestamp does not exceed recordingStart + maxBars·beatsPerBar·60/bpm
(later events are dropped before prompt conversion), with the declared
duration clamped to that window; the retained set is the value of a pure
function of the recorded sequence and inferred tempo, hence
deterministic. -/
theorem c6_trim_exact (s : ManualSession) (now t b : ℚ) (k : ℕ)
    (genResult : Option String) (waitCmds : List Command) (kb ep : Bool)
    (hrec : s.recorded ≠ []) (hstart : s.start_time = some t) (ht : t ≠ 0)
    (hmb : s.max_bars = some k) (hk : k ≠ 0)
    (hbpm : infer_bpm_from_onsets s.recorded = some b)
    (hdur : now - t > 60 / b * s.beats_per_bar * k) :
    genCallPrompts
      (s.finishRecordingAndGenerate now genResult waitCmds kb ep).2 =
      [{ messages := s.recorded.filter fun m =>
            m.timestamp ≤ t + 60 / b * s.beats_per_bar * k
         window_seconds := 60 / b * s.beats_per_bar * k
         current_bpm := some b
         ticks_per_beat := s.ticks_per_beat }] := by
  have hb30 := infer_bpm_ge_30 _ _ hbpm
  have hbpos : (0 : ℚ) < b := lt_of_lt_of_le (by norm_num) hb30
  have hbne : b ≠ 0 := ne_of_gt hbpos
  have hdu : (if pyTruthyQ s.start_time = true
      then now - s.start_time.getD 0 else 0) = now - t := by
    simp [hstart, pyTruthyQ, ht]
  have htrim : trimRecorded s.recorded s.start_time s.max_bars s.beats_per_bar
      (now - t) (some b) =
      (s.recorded.filter fun m =>
        m.timestamp ≤ t + 60 / b * s.beats_per_bar * k,
       60 / b * s.beats_per_bar * k) := by
    unfold trimRecorded
    simp [pyTruthyQ, hbne, hmb, pyTruthyN, hk, pyOrZero, hstart, ht, hdur]
  unfold ManualSession.finishRecordingAndGenerate
  rcases genResult with _ | gp <;>
    rcases hg : s.play_gate with _ | _ <;>
      rcases hpe : ep with _ | _ <;>
        rcases h1 : s.has_osc_status_cb with _ | _ <;>
          rcases h2 : s.has_osc_params_cb with _ | _ <;>
            rcases h3 : s.has_osc_log_cb with _ | _ <;>
              rcases hsess : s.session_state with _ | ss <;>
                simp [hrec, hg, h1, h2, h3, hsess, hdu, htrim, hbpm,
                  genCallPrompts_append, genCallPrompts_nil,
                  genCallPrompts_cons_setStatus, genCallPrompts_cons_oscStatus,
                  genCallPrompts_cons_oscLog, genCallPrompts_cons_oscParams,
                  genCallPrompts_cons_logUi, genCallPrompts_cons_genCall,
                  genCallPrompts_cons_play, genCallPrompts_cons_unlink,
                  genCallPrompts_cons_unlinkPrompt, waitForPlay_no_genCall]

/-- Witness for C6: four quarter-note onsets at 120 BPM from t = 1 with
`--max-bars 1` and a stop at t = 5; the cutoff is t = 3 and the late
note-off at 3.5 s is dropped. -/
theorem c6_trim_exact_witness :
    exSessionTrim.recorded ≠ [] ∧ exSessionTrim.start_time = some 1 ∧
    (1 : ℚ) ≠ 0 ∧ exSessionTrim.max_bars = some 1 ∧ (1 : ℕ) ≠ 0 ∧
    infer_bpm_from_onsets exSessionTrim.recorded = some 120 ∧
    (5 : ℚ) - 1 > 60 / 120 * exSessionTrim.beats_per_bar * (1 : ℕ) ∧
    genCallPrompts
      (exSessionTrim.finishRecordingAndGenerate 5 (some "out.mid") [] false
        false).2 =
      [{ messages := exSessionTrim.recorded.filter fun m =>
            m.timestamp ≤ 1 + 60 / 120 * exSessionTrim.beats_per_bar * (1 : ℕ)
         window_seconds := 60 / 120 * exSessionTrim.beats_per_bar * (1 : ℕ)
         current_bpm := some 120
         ticks_per_beat := exSessionTrim.ticks_per_beat }] :=
  ⟨by decide, rfl, by norm_num, rfl, by decide,
   by
     norm_num [infer_bpm_from_onsets, exSessionTrim, exSession, exNoteOn,
       exNoteOffLate, velTruthy, median, List.insertionSort, List.orderedInsert,
       List.filterMap_cons]
     intro h
     simp at h,
   by
     show (5 : ℚ) - 1 > 60 / 120 * (4 : ℕ) * (1 : ℕ)
     norm_num,
   c6_trim_exact exSessionTrim 5 1 120 1 (some "out.mid") [] false false
     (by decide) rfl (by norm_num) rfl (by decide)
     (by
       norm_num [infer_bpm_from_onsets, exSessionTrim, exSession, exNoteOn,
         exNoteOffLate, velTruthy, median, List.insertionSort,
         List.orderedInsert, List.filterMap_cons]
       intro h
       simp at h)
     (by
       show (5 : ℚ) - 1 > 60 / 120 * (4 : ℕ) * (1 : ℕ)
       norm_num)⟩

end Aria
